import Mathlib

/-!
Verification development for grml2usb (grml2usb.py).

The script is modelled by a shallow embedding: every external action
(subprocess invocation, directory creation, file write, temporary-directory
handling) is recorded as an `Effect`; Python exceptions are modelled by an
error type `Err`; a computation is a pure value of type `M α` holding the
outcome together with the ordered trace of effects it performed.  The
ambient machine (filesystem contents, process exit codes, PATH contents,
mkdtemp results) is an explicit `World` parameter, so each embedded
function is a pure, executable Lean function of the world.
-/

namespace Grml2usb

/-- Observable external actions performed by the script, in program order. -/
inductive Effect where
  | log (msg : String)
  | mkdtemp (path : String)
  | rmdir (path : String)
  | popen (argv : List String)
  | shell (cmd : String)
  | osMakedirs (path : String)
  | openWrite (path : String) (content : String)
deriving DecidableEq

/-- Python exceptions relevant to grml2usb's control flow. -/
inductive Err where
  | typeError
  | attributeError
  | osError
  | ioError (msg : String)
  | exception (msg : String)
  | systemExit (code : Nat)
deriving DecidableEq

deriving instance DecidableEq for Except

/-- Outcome of running a fragment of the script: the Python result (normal
value or exception) together with the trace of external effects. -/
structure M (α : Type) where
  res : Except Err α
  tr : List Effect
deriving DecidableEq

/-- Ambient machine state consulted by the script (filesystem predicates,
process exit codes, environment); all read-only oracles. -/
structure World where
  isdir : String → Bool
  pexists : String → Bool
  walk : String → List String
  firstLine : String → Option String
  writable : String → Bool
  readable : String → Bool
  executable : String → Bool
  pathDirs : List String
  euid0 : Bool
  rc : List String → Int
  shellRC : String → Int
  popenErr : List String → Bool
  mkdtempName : Nat → String

/-- The command-line options consumed by the modelled core. -/
structure Options where
  dryrun : Bool
  copyonly : Bool
  grub : Bool
  mbr : Bool
deriving DecidableEq

def mret {α : Type} (a : α) : M α := ⟨.ok a, []⟩

def mthrow {α : Type} (e : Err) : M α := ⟨.error e, []⟩

def mbind {α β : Type} (m : M α) (k : α → M β) : M β :=
  match m.res with
  | .ok a => ⟨(k a).res, m.tr ++ (k a).tr⟩
  | .error e => ⟨.error e, m.tr⟩

instance : Monad M where
  pure := mret
  bind := mbind

def emit (e : Effect) : M Unit := ⟨.ok (), [e]⟩

/-- Python try/except catching exactly TypeError. -/
def tryCatchTE {α : Type} (m : M α) (handler : M α) : M α :=
  match m.res with
  | .error .typeError => ⟨handler.res, m.tr ++ handler.tr⟩
  | _ => m

/-- Python try/finally: the finaliser always runs; if it raises, its
exception replaces the body's outcome. -/
def withFinally {α : Type} (m : M α) (fin : M Unit) : M α :=
  ⟨match fin.res with
    | .error e => .error e
    | .ok _ => m.res,
   m.tr ++ fin.tr⟩

/-- Python except IOError / except Exception (does not catch SystemExit). -/
def catchNonExit {α : Type} (m : M α) (handler : M α) : M α :=
  match m.res with
  | .error (.systemExit _) => m
  | .error _ => ⟨handler.res, m.tr ++ handler.tr⟩
  | .ok _ => m

/-! ## Embedded script functions

Each definition below translates the function of the same name from
grml2usb.py; line references are to that file. -/

/-- subprocess.Popen(argv): raises TypeError when any argv entry is None,
OSError when the executable cannot be spawned, otherwise records the
invocation and yields the return code observed by proc.wait(). -/
def subprocess_Popen (w : World) (argv : List (Option String)) : M Int :=
  if argv.any Option.isNone then mthrow .typeError
  else
    let argv2 := argv.map (fun a => a.getD "")
    if w.popenErr argv2 then mthrow .osError
    else mbind (emit (.popen argv2)) (fun _ => mret (w.rc argv2))

/-- proc.wait() on the value returned by execute(subprocess.Popen, ...):
in dry-run mode execute returned None, so .wait() raises AttributeError. -/
def procWait (proc : Option Int) : M Int :=
  match proc with
  | none => mthrow .attributeError
  | some rc => mret rc

/-- execute(f, args) wrapper (lines 94-102): in dry-run mode only logs and
returns None; otherwise runs the command, here specialised to
subprocess.Popen. -/
def execute_popen (w : World) (opts : Options) (argv : List (Option String)) :
    M (Option Int) :=
  if opts.dryrun then
    mbind (emit (.log "dry-run only: subprocess.Popen")) (fun _ => mret none)
  else mbind (subprocess_Popen w argv) (fun rc => mret (some rc))

/-- mkdir wrapper (lines 362-370): os.makedirs unless the directory already
exists; OSError is swallowed. -/
def mkdir (w : World) (directory : String) : M Unit :=
  if w.isdir directory then mret () else emit (.osMakedirs directory)

/-- execute(mkdir, directory): dry-run only logs. -/
def execute_mkdir (w : World) (opts : Options) (directory : String) : M Unit :=
  if opts.dryrun then emit (.log "dry-run only: grml2usb.mkdir")
  else mkdir w directory

/-- is_exe (lines 105-110): os.path.exists and os.access(X_OK). -/
def is_exe (w : World) (fpath : String) : Bool :=
  w.pexists fpath && w.executable fpath

/-- is_writeable (lines 259-269): false for an empty or missing path, else
requires both write and read access. -/
def is_writeable (w : World) (device : String) : Bool :=
  if device = "" then false
  else if !w.pexists device then false
  else w.writable device && w.readable device

/-- os.path.join for a directory and a relative file name. -/
def joinPath (d f : String) : String := d ++ "/" ++ f

/-- str.split(sep) on a character separator, as a structural recursion over
the character list (so that it evaluates by kernel reduction). -/
def splitCh (sep : Char) : List Char → List (List Char)
  | [] => [[]]
  | c :: rest =>
    match splitCh sep rest with
    | [] => if c = sep then [[], []] else [[c]]
    | h :: t => if c = sep then [] :: h :: t else (c :: h) :: t

/-- search_path.split(pathsep) with the Unix path separator. -/
def splitColon (s : String) : List String := (splitCh ':' s.data).map String.mk

/-- Inner loop of search_file (lines 134-138): for current_dir in os.walk,
break when the file exists there; current_dir keeps its last assignment
even when nothing is found, exactly as in the Python scoping. -/
def walkDirs (w : World) (filename : String) :
    List String → Bool × Option String → Bool × Option String
  | [], st => st
  | d :: rest, st =>
    if w.pexists (joinPath d filename) then (true, some d)
    else walkDirs w filename rest (st.1, some d)

/-- Outer loop of search_file over the colon-separated search path. -/
def searchGo (w : World) (filename : String) :
    List String → Bool × Option String → Bool × Option String
  | [], st => st
  | p :: rest, st => searchGo w filename rest (walkDirs w filename (w.walk p) st)

/-- search_file (lines 130-142): returns abspath(join(current_dir, filename))
when the file_found flag was set, and None otherwise (the walked directories
are taken to be absolute, so abspath is the identity here). -/
def search_file (w : World) (filename : String) (search_path : String) :
    Option String :=
  match searchGo w filename (splitColon search_path) (false, none) with
  | (true, some d) => some (joinPath d filename)
  | (true, none) => none
  | (false, _) => none

/-- which (lines 113-127): a program name containing a slash is checked
directly, otherwise each PATH entry is tried in order. -/
def firstExeIn (w : World) (program : String) : List String → Option String
  | [] => none
  | p :: rest =>
    let exe_file := joinPath p program
    if is_exe w exe_file then some exe_file else firstExeIn w program rest

def which (w : World) (program : String) : Option String :=
  if program.data.contains '/' then
    if is_exe w program then some program else none
  else firstExeIn w program w.pathDirs

/-- re.match(r'[\w-]*', line).group(): the longest leading run of
word-characters (ASCII letters, digits, underscore) and hyphens. -/
def takeFlavour (line : String) : String :=
  String.mk (line.data.takeWhile (fun c => c.isAlphanum || c = '_' || c = '-'))

/-- identify_grml_flavour (lines 472-494).  search_file yields None (never
the empty string) when the marker is missing, so the == "" guard is dead;
open(None) then raises TypeError, which the except TypeError clause
re-raises.  An unreadable file raises IOError, logged by the bare except
clause and re-raised. -/
def identify_grml_flavour (w : World) (mountpath : String) : M String :=
  let version_file := search_file w "grml-version" mountpath
  if version_file = some "" then
    mbind (emit (.log "Error: could not find grml-version file."))
      (fun _ => mthrow (.exception "raise"))
  else
    match version_file with
    | none => mthrow .typeError
    | some vf =>
      match w.firstLine vf with
      | none =>
        mbind (emit (.log "Unexpected error:"))
          (fun _ => mthrow (.ioError "open failed"))
      | some grml_info => mret (takeFlavour grml_info)

/-- mount (lines 311-323): always a real subprocess call (the source notes
that dry_run does not work here); non-zero exit raises. -/
def mount (w : World) (source target : String) (options : List String) : M Unit := do
  emit (.log ("mount " ++ source ++ " " ++ target))
  let rc ← subprocess_Popen w ((["mount"] ++ options ++ [source, target]).map some)
  if rc ≠ 0 then mthrow (.exception "Error executing mount") else pure ()

/-- unmount (lines 325-334): a real subprocess call; non-zero exit raises. -/
def unmount (w : World) (directory : String) : M Unit := do
  emit (.log ("umount " ++ directory))
  let rc ← subprocess_Popen w ([some "umount", some directory])
  if rc ≠ 0 then mthrow (.exception "Error executing umount") else pure ()

/-- generate_grub_config (lines 159-184): the menu.lst template with the
flavour substituted at each %(grml_name)s hole (the literal template text
is split here at the boundaries of the kernel/initrd/module references;
the concatenation yields exactly the source template). -/
def generate_grub_config (grml_flavour : String) : String :=
  let grml_name := grml_flavour
  "# misc options:\ntimeout 30\n# color red/blue green/black\nsplashimage=/boot/grub/splash.xpm.gz\nforeground  = 000000\nbackground  = FFCC33\n\n# define entries:\ntitle "
    ++ grml_name
    ++ "  - Default boot (using 1024x768 framebuffer)\nkernel "
    ++ "/boot/release/" ++ grml_name ++ "/linux26"
    ++ " apm=power-off lang=us vga=791 quiet boot=live nomce "
    ++ "module=" ++ grml_name
    ++ "\ninitrd "
    ++ "/boot/release/" ++ grml_name ++ "/initrd.gz"
    ++ "\n\n# TODO: extend configuration :)\n"

/-- generate_isolinux_splash (lines 187-200). -/
def generate_isolinux_splash (grml_flavour : String) : String :=
  let grml_name := grml_flavour
  "17/boot/isolinux/logo.16\n\nSome information and boot options available via keys F2 - F10. http://grml.org/\n"
    ++ grml_name ++ "\n"

/-- generate_syslinux_config (lines 202-236): the syslinux.cfg template with
the flavour substituted at each %(grml_name)s hole (literal template text
split at the boundaries of the kernel/initrd/module references; the
concatenation yields exactly the source template). -/
def generate_syslinux_config (grml_flavour : String) : String :=
  let grml_name := grml_flavour
  "# use this to control the bootup via a serial port\n# SERIAL 0 9600\nDEFAULT grml\nTIMEOUT 300\nPROMPT 1\nDISPLAY /boot/isolinux/boot.msg\nF1 /boot/isolinux/boot.msg\nF2 /boot/isolinux/f2\nF3 /boot/isolinux/f3\nF4 /boot/isolinux/f4\nF5 /boot/isolinux/f5\nF6 /boot/isolinux/f6\nF7 /boot/isolinux/f7\nF8 /boot/isolinux/f8\nF9 /boot/isolinux/f9\nF10 /boot/isolinux/f10\n\nLABEL grml\nKERNEL "
    ++ "/boot/release/" ++ grml_name ++ "/linux26"
    ++ "\nAPPEND initrd="
    ++ "/boot/release/" ++ grml_name ++ "/initrd.gz"
    ++ " apm=power-off lang=us boot=live nomce "
    ++ "module=" ++ grml_name
    ++ "\n\n# TODO: extend configuration :)\n"

/-- install_syslinux (lines 151-156): only a critical log today (TODO). -/
def install_syslinux (device : String) : M Unit :=
  emit (.log ("debug: syslinux " ++ device ++ " [TODO]"))

/-- install_grub (lines 239-241): only a critical log today (TODO). -/
def install_grub (device : String) : M Unit :=
  emit (.log ("TODO: grub-install " ++ device))

/-- Last character of the path is a digit: partition[-1:].isdigit(). -/
def lastCharIsDigit (s : String) : Bool :=
  match s.data.getLast? with
  | some c => c.isDigit
  | none => false

/-- group(1) of re.match(r'(.*?)\d*$', s): the shortest prefix whose
complement suffix consists solely of digits, i.e. s with its maximal
trailing digit run removed. -/
def reStrip : List Char → List Char
  | [] => []
  | c :: rest =>
    if (c :: rest).all Char.isDigit then []
    else c :: reStrip rest

def stripPartitionDigits (partition : String) : String :=
  String.mk (reStrip partition.data)

/-- Device computed by install_bootloader (lines 244-251): strip the
trailing digits when the last character is a digit, else use the path
unchanged. -/
def install_bootloader_device (partition : String) : String :=
  if lastCharIsDigit partition then stripPartitionDigits partition
  else partition

/-- install_bootloader (lines 244-256). -/
def install_bootloader (opts : Options) (partition : String) : M Unit :=
  let device := install_bootloader_device partition
  if opts.grub then install_grub device else install_syslinux device

/-- install_mbr (lines 271-308).  Preconditions first; then step 1
(lilo -M, unconditional), step 2 (lilo -A, skipped in dry-run) and step 3
(raw MBR blob copy via a shell, skipped in dry-run, negative status only
logged). -/
def install_mbr (w : World) (device : String) (dry_run : Bool) : M Unit := do
  if !is_writeable w device then mthrow (.ioError "device not writeable for user")
  else do
    let lilo := "./lilo/lilo.static"
    if !is_exe w lilo then mthrow (.exception "lilo executable not available.")
    else do
      emit (.log (lilo ++ " -S /dev/null -M " ++ device ++ " ext"))
      let rc1 ← subprocess_Popen w
        ([lilo, "-S", "/dev/null", "-M", device, "ext"].map some)
      if rc1 ≠ 0 then mthrow (.exception "error executing lilo")
      else do
        emit (.log (lilo ++ " -S /dev/null -A " ++ device ++ " 1"))
        let _ ← (if !dry_run then do
          let rc2 ← subprocess_Popen w
            ([lilo, "-S", "/dev/null", "-A", device, "1"].map some)
          if rc2 ≠ 0 then mthrow (.exception "error executing lilo") else pure ()
        else pure ())
        emit (.log ("cat /usr/lib/syslinux/mbr.bin > " ++ device))
        if !dry_run then do
          emit (.shell ("cat /usr/lib/syslinux/mbr.bin > " ++ device))
          if w.shellRC ("cat /usr/lib/syslinux/mbr.bin > " ++ device) < 0 then
            emit (.log "Error copying MBR to device")
          else pure ()
        else pure ()

/-- for ffile in 'f2', ..., 'f10' loop of copy_grml_files (lines 420-424). -/
def copy_bootsplash_files (w : World) (opts : Options)
    (iso_mount isolinux_target : String) : List String → M Unit
  | [] => pure ()
  | f :: rest => do
    let bootsplash := search_file w f iso_mount
    emit (.log ("cp " ++ f))
    let p ← execute_popen w opts
      [some "install", some "--mode=664", bootsplash, some (isolinux_target ++ f)]
    let _ ← procWait p
    copy_bootsplash_files w opts iso_mount isolinux_target rest

/-- copy_grml_files (lines 373-463).  Note the malformed logging call at
line 416 ("cp %s %s" % logo): it raises TypeError unconditionally, so the
non-copyonly tail below it is dead code; it is nevertheless translated in
full.  In dry-run mode execute returns None and the first proc.wait()
raises AttributeError. -/
def copy_grml_files (w : World) (opts : Options)
    (grml_flavour iso_mount target : String) (dry_run : Bool) : M Unit := do
  emit (.log "Copying files. This might take a while....")
  let squashfs := search_file w (grml_flavour ++ ".squashfs") iso_mount
  let squashfs_target := target ++ "/live/"
  execute_mkdir w opts squashfs_target
  emit (.log "cp squashfs")
  let proc1 ← execute_popen w opts
    [some "install", some "--mode=664", squashfs,
     some (squashfs_target ++ grml_flavour ++ ".squashfs")]
  let _ ← procWait proc1
  let filesystem_module := search_file w "filesystem.module" iso_mount
  emit (.log "cp filesystem.module")
  let proc2 ← execute_popen w opts
    [some "install", some "--mode=664", filesystem_module,
     some (squashfs_target ++ grml_flavour ++ ".module")]
  let _ ← procWait proc2
  let release_target := target ++ "/boot/release/" ++ grml_flavour
  execute_mkdir w opts release_target
  let kernel := search_file w "linux26" iso_mount
  emit (.log "cp linux26")
  let proc3 ← execute_popen w opts
    [some "install", some "--mode=664", kernel, some (release_target ++ "/linux26")]
  let _ ← procWait proc3
  let initrd := search_file w "initrd.gz" iso_mount
  emit (.log "cp initrd.gz")
  let proc4 ← execute_popen w opts
    [some "install", some "--mode=664", initrd, some (release_target ++ "/initrd.gz")]
  let _ ← procWait proc4
  let _ ← (if !opts.copyonly then do
    let isolinux_target := target ++ "/boot/isolinux/"
    execute_mkdir w opts isolinux_target
    let logo := search_file w "logo.16" iso_mount
    -- line 416: logging.debug("cp %s %s" % logo, ...) - malformed format
    -- string, raises TypeError before anything below can run
    let _ ← (mthrow .typeError : M Unit)
    let proc5 ← execute_popen w opts
      [some "install", some "--mode=664", logo, some (isolinux_target ++ "logo.16")]
    let _ ← procWait proc5
    copy_bootsplash_files w opts iso_mount isolinux_target
      ["f2", "f3", "f4", "f5", "f6", "f7", "f8", "f9", "f10"]
    let grub_target := target ++ "/boot/grub/"
    execute_mkdir w opts grub_target
    emit (.log "cp grub/splash.xpm.gz")
    let proc6 ← execute_popen w opts
      [some "install", some "--mode=664", some "grub/splash.xpm.gz",
       some (grub_target ++ "splash.xpm.gz")]
    let _ ← procWait proc6
    emit (.log "cp grub/stage2_eltorito")
    let proc7 ← execute_popen w opts
      [some "install", some "--mode=664", some "grub/stage2_eltorito",
       some (grub_target ++ "stage2_eltorito")]
    let _ ← procWait proc7
    emit (.log "Generating grub configuration")
    let _ ← (if !dry_run then
      emit (.openWrite (grub_target ++ "menu.lst") (generate_grub_config grml_flavour))
    else pure ())
    let syslinux_target := target ++ "/boot/isolinux/"
    execute_mkdir w opts syslinux_target
    emit (.log "Generating syslinux configuration")
    let _ ← (if !dry_run then
      emit (.openWrite (syslinux_target ++ "syslinux.cfg")
        (generate_syslinux_config grml_flavour))
    else pure ())
    emit (.log "Generating isolinux/syslinux splash")
    if !dry_run then
      emit (.openWrite (syslinux_target ++ "boot.msg")
        (generate_isolinux_splash grml_flavour))
    else pure ()
  else pure ())
  let _ ← subprocess_Popen w [some "sync"]
  pure ()

/-- The try/except TypeError body of handle_iso (lines 520-526): identify
the flavour, log it, copy the files; a TypeError is reported as a flavour
identification failure and exits with status 1. -/
def handle_iso_deploy (w : World) (opts : Options)
    (iso_mountpoint device_mountpoint : String) : M Unit :=
  tryCatchTE
    (do
      let grml_flavour ← identify_grml_flavour w iso_mountpoint
      emit (.log ("Identified grml flavour \"" ++ grml_flavour ++ "\"."))
      copy_grml_files w opts grml_flavour iso_mountpoint device_mountpoint
        opts.dryrun)
    (do
      emit (.log "Fatal: could not identify grml flavour, sorry.")
      mthrow (.systemExit 1))

/-- The finally block of handle_iso (lines 527-533): unmount and remove
each mountpoint that is a directory and was created by us. -/
def handle_iso_cleanup (w : World) (iso_mountpoint device_mountpoint : String)
    (remove_iso_mountpoint remove_device_mountpoint : Bool) : M Unit := do
  let _ ← (if w.isdir iso_mountpoint && remove_iso_mountpoint then do
    unmount w iso_mountpoint
    emit (.rmdir iso_mountpoint)
  else pure ())
  if w.isdir device_mountpoint && remove_device_mountpoint then do
    unmount w device_mountpoint
    emit (.rmdir device_mountpoint)
  else pure ()

/-- handle_iso (lines 496-533).  A directory source is an unimplemented
TODO.  Otherwise the ISO is loop-mounted on a fresh temporary directory; a
directory target is used as-is (the skip_mbr assignment there is a
function-local Python binding, so the module-level skip_mbr is unchanged),
a block-device target is mounted on a second temporary directory.  The
try/except TypeError/finally structure guarantees the unmounts. -/
def handle_iso (w : World) (opts : Options) (iso device : String) : M Unit := do
  emit (.log ("iso = " ++ iso))
  if w.isdir iso then
    emit (.log "TODO: /live/image handling not yet implemented")
  else do
    let iso_mountpoint := w.mkdtempName 0
    emit (.mkdtemp iso_mountpoint)
    let remove_iso_mountpoint := true
    mount w iso iso_mountpoint ["-o", "loop", "-t", "iso9660"]
    let st ← if w.isdir device then do
        emit (.log "Specified target is a directory, not mounting therefore.")
        -- skip_mbr = True here binds a new local; the global stays False
        pure (device, false)
      else do
        let dm := w.mkdtempName 1
        emit (.mkdtemp dm)
        mount w device dm []
        pure (dm, true)
    let device_mountpoint := st.1
    let remove_device_mountpoint := st.2
    withFinally
      (handle_iso_deploy w opts iso_mountpoint device_mountpoint)
      (handle_iso_cleanup w iso_mountpoint device_mountpoint
        remove_iso_mountpoint remove_device_mountpoint)

/-- Module-level skip_mbr flag (line 42); handle_iso never declares it
global, so it is False for the whole run. -/
def skip_mbr : Bool := false

/-- The for iso in isos loop of main (lines 578-579). -/
def main_loop (w : World) (opts : Options) (device : String) : List String → M Unit
  | [] => pure ()
  | iso :: rest => do
    handle_iso w opts iso device
    main_loop w opts device rest

/-- main (lines 539-600), after CLI parsing and logging setup: root check
(skipped in dry-run), the up-front which("syslinux") check (fatal
regardless of --grub), per-source handling, the MBR branch guarded by the
module-level skip_mbr, and the bootloader installation unless copyonly. -/
def main_run (w : World) (opts : Options) (isos : List String) (device : String) :
    M Unit := do
  let _ ← (if opts.dryrun then
    emit (.log "Running in simulate mode as requested via option dry-run.")
  else if !w.euid0 then mthrow (.systemExit 1)
  else pure ())
  let _ ← (if (which w "syslinux").isNone then do
    emit (.log "Sorry, syslinux not available. Exiting.")
    emit (.log "Please install syslinux or consider using the --grub option.")
    mthrow (.systemExit 1)
  else pure ())
  let _ ← main_loop w opts device isos
  let device2 :=
    if opts.mbr && !skip_mbr && lastCharIsDigit device then
      stripPartitionDigits device
    else device
  let _ ← (if opts.mbr && !skip_mbr then
    catchNonExit (install_mbr w device2 opts.dryrun)
      (do
        emit (.log "Execution failed:")
        mthrow (.systemExit 1))
  else pure ())
  let _ ← (if opts.copyonly then
    emit (.log "Not installing bootloader and its files as requested via option copyonly.")
  else install_bootloader opts device2)
  emit (.log "Finished execution of grml2usb (0.0.1). Have fun with your grml system.")

/-! ## Trace predicates -/

/-- An external umount invocation (any directory). -/
def isUmountEff : Effect → Bool
  | .popen ("umount" :: _) => true
  | _ => false

/-- The umount invocation for one specific directory. -/
def umountTo (mp : String) : Effect → Bool
  | .popen l => l == ["umount", mp]
  | _ => false

/-- Removal of one specific directory. -/
def rmdirOf (mp : String) : Effect → Bool
  | .rmdir p => p == mp
  | _ => false

/-- Number of umount invocations for mp in a trace. -/
def countU (mp : String) (t : List Effect) : Nat := (t.filter (umountTo mp)).length

/-- Number of removals of mp in a trace. -/
def countRm (mp : String) (t : List Effect) : Nat := (t.filter (rmdirOf mp)).length

/-- Effects that are neither an umount nor a directory removal. -/
def notCleanup (e : Effect) : Bool :=
  match e with
  | .popen ("umount" :: _) => false
  | .rmdir _ => false
  | _ => true

/-- Effects a dry-run is allowed to produce for real: log output, temporary
directory bookkeeping, the mount/umount calls the script never wraps in
execute, and the unguarded boot-record-writer initialization step. -/
def dryAllowed : Effect → Bool
  | .log _ => true
  | .mkdtemp _ => true
  | .rmdir _ => true
  | .popen ("mount" :: _) => true
  | .popen ("umount" :: _) => true
  | .popen ("./lilo/lilo.static" :: "-S" :: "/dev/null" :: "-M" :: _) => true
  | _ => false

/-- Effects that create or modify a file under the target tree. -/
def producesFile : Effect → Bool
  | .osMakedirs _ => true
  | .openWrite _ _ => true
  | .popen ("install" :: _) => true
  | .shell _ => true
  | _ => false

/-- Substring containment, used for the generated menu texts. -/
def mentions (s sub : String) : Prop := ∃ a b : String, s = a ++ sub ++ b

/-! ## Concrete worlds used as witnesses and counterexamples -/

/-- World with an ISO source at /grml.iso (marker present, flavour line
"grml-small 2021.01"), all payload files present under the ISO mount, a
directory target /mnt/usb, every tool available and every call succeeding. -/
def W1 : World where
  isdir := fun s => s == "/mnt/usb" || s == "/tmp/g0" || s == "/tmp/g1"
  pexists := fun s =>
    s == "/tmp/g0/grml-version" || s == "/tmp/g0/grml-small.squashfs" ||
    s == "/tmp/g0/filesystem.module" || s == "/tmp/g0/linux26" ||
    s == "/tmp/g0/initrd.gz" || s == "/usr/bin/syslinux" ||
    s == "./lilo/lilo.static" || s == "/mnt/usb"
  walk := fun s => if s == "/tmp/g0" then ["/tmp/g0"] else []
  firstLine := fun s =>
    if s == "/tmp/g0/grml-version" then some "grml-small 2021.01" else none
  writable := fun _ => true
  readable := fun _ => true
  executable := fun _ => true
  pathDirs := ["/usr/bin"]
  euid0 := true
  rc := fun _ => 0
  shellRC := fun _ => 0
  popenErr := fun _ => false
  mkdtempName := fun n => if n == 0 then "/tmp/g0" else "/tmp/g1"

/-- World whose source /srcdir is a directory (the unimplemented branch)
and whose target is the partition path /dev/sdb1; everything succeeds. -/
def WD : World where
  isdir := fun s => s == "/srcdir"
  pexists := fun _ => true
  walk := fun _ => []
  firstLine := fun _ => none
  writable := fun _ => true
  readable := fun _ => true
  executable := fun _ => true
  pathDirs := ["/usr/bin"]
  euid0 := true
  rc := fun _ => 0
  shellRC := fun _ => 0
  popenErr := fun _ => false
  mkdtempName := fun n => if n == 0 then "/tmp/g0" else "/tmp/g1"

/-- World in which no directory on PATH holds a syslinux executable. -/
def WG : World where
  isdir := fun _ => false
  pexists := fun _ => false
  walk := fun _ => []
  firstLine := fun _ => none
  writable := fun _ => false
  readable := fun _ => false
  executable := fun _ => false
  pathDirs := ["/usr/bin"]
  euid0 := true
  rc := fun _ => 0
  shellRC := fun _ => 0
  popenErr := fun _ => false
  mkdtempName := fun n => if n == 0 then "/tmp/g0" else "/tmp/g1"

/-- World like W1 except that the grml-version marker's first line is
empty. -/
def W5 : World where
  isdir := fun s => s == "/mnt/usb" || s == "/tmp/g0" || s == "/tmp/g1"
  pexists := fun s =>
    s == "/tmp/g0/grml-version" || s == "/usr/bin/syslinux" || s == "/mnt/usb"
  walk := fun s => if s == "/tmp/g0" then ["/tmp/g0"] else []
  firstLine := fun s => if s == "/tmp/g0/grml-version" then some "" else none
  writable := fun _ => true
  readable := fun _ => true
  executable := fun _ => true
  pathDirs := ["/usr/bin"]
  euid0 := true
  rc := fun _ => 0
  shellRC := fun _ => 0
  popenErr := fun _ => false
  mkdtempName := fun n => if n == 0 then "/tmp/g0" else "/tmp/g1"

/-- World whose source /srcdir is a directory containing a grml-version
marker with first line "grml-testflavour 2021.01", and whose target
/mnt/usb is a directory (scenario A of the spec). -/
def W4 : World where
  isdir := fun s => s == "/srcdir" || s == "/mnt/usb"
  pexists := fun s => s == "/srcdir/grml-version" || s == "/usr/bin/syslinux"
  walk := fun s => if s == "/srcdir" then ["/srcdir"] else []
  firstLine := fun s =>
    if s == "/srcdir/grml-version" then some "grml-testflavour 2021.01" else none
  writable := fun _ => true
  readable := fun _ => true
  executable := fun _ => true
  pathDirs := ["/usr/bin"]
  euid0 := true
  rc := fun _ => 0
  shellRC := fun _ => 0
  popenErr := fun _ => false
  mkdtempName := fun n => if n == 0 then "/tmp/g0" else "/tmp/g1"

/-- World with an ISO source and a block-device target /dev/sdc (both
temporary mountpoints used, everything succeeding). -/
def WB : World where
  isdir := fun s => s == "/tmp/g0" || s == "/tmp/g1"
  pexists := fun s =>
    s == "/tmp/g0/grml-version" || s == "/tmp/g0/grml-small.squashfs" ||
    s == "/tmp/g0/filesystem.module" || s == "/tmp/g0/linux26" ||
    s == "/tmp/g0/initrd.gz"
  walk := fun s => if s == "/tmp/g0" then ["/tmp/g0"] else []
  firstLine := fun s =>
    if s == "/tmp/g0/grml-version" then some "grml-small 2021.01" else none
  writable := fun _ => true
  readable := fun _ => true
  executable := fun _ => true
  pathDirs := ["/usr/bin"]
  euid0 := true
  rc := fun _ => 0
  shellRC := fun _ => 0
  popenErr := fun _ => false
  mkdtempName := fun n => if n == 0 then "/tmp/g0" else "/tmp/g1"

/-- Options for a plain dry run. -/
def optsDry : Options := ⟨true, false, false, false⟩

/-- Options for a real run with --mbr and --copy-only. -/
def optsMbrCopy : Options := ⟨false, true, false, true⟩

/-- Options for a real run with --mbr only. -/
def optsMbr : Options := ⟨false, false, false, true⟩

/-- Options for a real run with --grub only. -/
def optsGrub : Options := ⟨false, false, true, false⟩

/-- Options for a plain real run. -/
def optsPlain : Options := ⟨false, false, false, false⟩

/-! ## Monad lemmas -/

@[simp] theorem bind_eq_mbind {α β : Type} (m : M α) (k : α → M β) :
    m >>= k = mbind m k := rfl

@[simp] theorem pure_eq_mret {α : Type} (a : α) : (pure a : M α) = ⟨.ok a, []⟩ := rfl

@[simp] theorem mret_def {α : Type} (a : α) : mret a = (⟨.ok a, []⟩ : M α) := rfl

@[simp] theorem mthrow_def {α : Type} (e : Err) : (mthrow e : M α) = ⟨.error e, []⟩ := rfl

@[simp] theorem emit_def (e : Effect) : emit e = ⟨.ok (), [e]⟩ := rfl

@[simp] theorem mbind_mk_ok {α β : Type} (a : α) (t : List Effect) (k : α → M β) :
    mbind ⟨.ok a, t⟩ k = ⟨(k a).res, t ++ (k a).tr⟩ := rfl

@[simp] theorem mbind_mk_error {α β : Type} (e : Err) (t : List Effect) (k : α → M β) :
    mbind ⟨.error e, t⟩ k = ⟨.error e, t⟩ := rfl

theorem mbind_res {α β : Type} (m : M α) (k : α → M β) :
    (mbind m k).res = match m.res with
      | .ok a => (k a).res
      | .error e => .error e := by
  cases h : m.res <;> simp [mbind, h]

theorem mbind_tr {α β : Type} (m : M α) (k : α → M β) :
    (mbind m k).tr = m.tr ++ (match m.res with
      | .ok a => (k a).tr
      | .error _ => []) := by
  cases h : m.res <;> simp [mbind, h]

@[simp] theorem map_some_getD (l : List String) :
    (l.map some).map (fun a => a.getD "") = l := by
  induction l with
  | nil => rfl
  | cons a t ih => simp [ih]

@[simp] theorem any_isNone_map_some (l : List String) :
    ((l.map some).any Option.isNone) = false := by
  induction l with
  | nil => rfl
  | cons a t ih => simp [ih]

/-! ## Trace-predicate kit: every effect of a computation satisfies P -/

theorem all_tr_mret {α : Type} (P : Effect → Bool) (a : α) :
    ((mret a).tr.all P) = true := rfl

theorem all_tr_mthrow {α : Type} (P : Effect → Bool) (e : Err) :
    (((mthrow e) : M α).tr.all P) = true := rfl

theorem all_tr_emit (P : Effect → Bool) (e : Effect) (h : P e = true) :
    ((emit e).tr.all P) = true := by simp [emit, h]

theorem all_tr_mbind {α β : Type} (P : Effect → Bool) (m : M α) (k : α → M β)
    (hm : (m.tr.all P) = true) (hk : ∀ a, (((k a).tr.all P)) = true) :
    ((mbind m k).tr.all P) = true := by
  cases h : m.res with
  | ok a =>
    have ht : (mbind m k).tr = m.tr ++ (k a).tr := by simp [mbind, h]
    rw [ht, List.all_append, hm, hk a]; rfl
  | error e =>
    have ht : (mbind m k).tr = m.tr := by simp [mbind, h]
    rw [ht, hm]

theorem all_tr_ite {α : Type} (P : Effect → Bool) (c : Prop) [Decidable c]
    (m1 m2 : M α) (h1 : (m1.tr.all P) = true) (h2 : (m2.tr.all P) = true) :
    (((if c then m1 else m2) : M α).tr.all P) = true := by
  split <;> assumption

theorem all_tr_subprocess (P : Effect → Bool) (w : World) (argv : List (Option String))
    (h : P (.popen (argv.map (fun a => a.getD ""))) = true) :
    ((subprocess_Popen w argv).tr.all P) = true := by
  unfold subprocess_Popen
  split
  · rfl
  · exact all_tr_ite P _ _ _ rfl (all_tr_mbind P _ _ (by simp [emit, h]) (fun _ => rfl))

theorem all_tr_procWait (P : Effect → Bool) (p : Option Int) :
    ((procWait p).tr.all P) = true := by cases p <;> rfl

theorem all_tr_execute_popen (P : Effect → Bool) (w : World) (opts : Options)
    (argv : List (Option String)) (hlog : ∀ s, P (.log s) = true)
    (h : P (.popen (argv.map (fun a => a.getD ""))) = true) :
    ((execute_popen w opts argv).tr.all P) = true := by
  unfold execute_popen
  exact all_tr_ite P _ _ _
    (all_tr_mbind P _ _ (all_tr_emit P _ (hlog _)) (fun _ => rfl))
    (all_tr_mbind P _ _ (all_tr_subprocess P w argv h) (fun _ => rfl))

theorem all_tr_mkdir (P : Effect → Bool) (w : World) (d : String)
    (h : P (.osMakedirs d) = true) : ((mkdir w d).tr.all P) = true := by
  unfold mkdir
  exact all_tr_ite P _ _ _ rfl (all_tr_emit P _ h)

theorem all_tr_execute_mkdir (P : Effect → Bool) (w : World) (opts : Options)
    (d : String) (hlog : ∀ s, P (.log s) = true) (h : P (.osMakedirs d) = true) :
    ((execute_mkdir w opts d).tr.all P) = true := by
  unfold execute_mkdir
  exact all_tr_ite P _ _ _ (all_tr_emit P _ (hlog _)) (all_tr_mkdir P w d h)

theorem all_tr_identify (P : Effect → Bool) (w : World) (mp : String)
    (hlog : ∀ s, P (.log s) = true) :
    ((identify_grml_flavour w mp).tr.all P) = true := by
  simp only [identify_grml_flavour]
  split
  · exact all_tr_mbind P _ _ (all_tr_emit P _ (hlog _)) (fun _ => rfl)
  · split
    · rfl
    · split
      · exact all_tr_mbind P _ _ (all_tr_emit P _ (hlog _)) (fun _ => rfl)
      · rfl

theorem all_tr_copy_bootsplash (P : Effect → Bool) (w : World) (opts : Options)
    (im it : String) (l : List String) (hlog : ∀ s, P (.log s) = true)
    (hinst : ∀ args : List String, P (.popen ("install" :: args)) = true) :
    ((copy_bootsplash_files w opts im it l).tr.all P) = true := by
  induction l with
  | nil => rfl
  | cons f rest ih =>
    unfold copy_bootsplash_files
    refine all_tr_mbind P _ _ (all_tr_emit P _ (hlog _)) (fun _ => ?_)
    refine all_tr_mbind P _ _ (all_tr_execute_popen P w opts _ hlog (hinst _)) (fun p => ?_)
    exact all_tr_mbind P _ _ (all_tr_procWait P p) (fun _ => ih)

theorem all_tr_copy_grml_files (P : Effect → Bool) (w : World) (opts : Options)
    (f im tgt : String) (dr : Bool) (hlog : ∀ s, P (.log s) = true)
    (hinst : ∀ args : List String, P (.popen ("install" :: args)) = true)
    (hsync : P (.popen ["sync"]) = true)
    (hmk : ∀ d, P (.osMakedirs d) = true)
    (hwr : ∀ p c, P (.openWrite p c) = true) :
    ((copy_grml_files w opts f im tgt dr).tr.all P) = true := by
  unfold copy_grml_files
  refine all_tr_mbind P _ _ (all_tr_emit P _ (hlog _)) (fun _ => ?_)
  refine all_tr_mbind P _ _ (all_tr_execute_mkdir P w opts _ hlog (hmk _)) (fun _ => ?_)
  refine all_tr_mbind P _ _ (all_tr_emit P _ (hlog _)) (fun _ => ?_)
  refine all_tr_mbind P _ _ (all_tr_execute_popen P w opts _ hlog (hinst _)) (fun p1 => ?_)
  refine all_tr_mbind P _ _ (all_tr_procWait P p1) (fun _ => ?_)
  refine all_tr_mbind P _ _ (all_tr_emit P _ (hlog _)) (fun _ => ?_)
  refine all_tr_mbind P _ _ (all_tr_execute_popen P w opts _ hlog (hinst _)) (fun p2 => ?_)
  refine all_tr_mbind P _ _ (all_tr_procWait P p2) (fun _ => ?_)
  refine all_tr_mbind P _ _ (all_tr_execute_mkdir P w opts _ hlog (hmk _)) (fun _ => ?_)
  refine all_tr_mbind P _ _ (all_tr_emit P _ (hlog _)) (fun _ => ?_)
  refine all_tr_mbind P _ _ (all_tr_execute_popen P w opts _ hlog (hinst _)) (fun p3 => ?_)
  refine all_tr_mbind P _ _ (all_tr_procWait P p3) (fun _ => ?_)
  refine all_tr_mbind P _ _ (all_tr_emit P _ (hlog _)) (fun _ => ?_)
  refine all_tr_mbind P _ _ (all_tr_execute_popen P w opts _ hlog (hinst _)) (fun p4 => ?_)
  refine all_tr_mbind P _ _ (all_tr_procWait P p4) (fun _ => ?_)
  refine all_tr_mbind P _ _ ?_ (fun _ => ?_)
  · refine all_tr_ite P _ _ _ ?_ rfl
    refine all_tr_mbind P _ _ (all_tr_execute_mkdir P w opts _ hlog (hmk _)) (fun _ => ?_)
    refine all_tr_mbind P _ _ (all_tr_mthrow P _) (fun _ => ?_)
    refine all_tr_mbind P _ _ (all_tr_execute_popen P w opts _ hlog (hinst _)) (fun p5 => ?_)
    refine all_tr_mbind P _ _ (all_tr_procWait P p5) (fun _ => ?_)
    refine all_tr_mbind P _ _ (all_tr_copy_bootsplash P w opts _ _ _ hlog hinst) (fun _ => ?_)
    refine all_tr_mbind P _ _ (all_tr_execute_mkdir P w opts _ hlog (hmk _)) (fun _ => ?_)
    refine all_tr_mbind P _ _ (all_tr_emit P _ (hlog _)) (fun _ => ?_)
    refine all_tr_mbind P _ _ (all_tr_execute_popen P w opts _ hlog (hinst _)) (fun p6 => ?_)
    refine all_tr_mbind P _ _ (all_tr_procWait P p6) (fun _ => ?_)
    refine all_tr_mbind P _ _ (all_tr_emit P _ (hlog _)) (fun _ => ?_)
    refine all_tr_mbind P _ _ (all_tr_execute_popen P w opts _ hlog (hinst _)) (fun p7 => ?_)
    refine all_tr_mbind P _ _ (all_tr_procWait P p7) (fun _ => ?_)
    refine all_tr_mbind P _ _ (all_tr_emit P _ (hlog _)) (fun _ => ?_)
    refine all_tr_mbind P _ _ (all_tr_ite P _ _ _ (all_tr_emit P _ (hwr _ _)) rfl) (fun _ => ?_)
    refine all_tr_mbind P _ _ (all_tr_execute_mkdir P w opts _ hlog (hmk _)) (fun _ => ?_)
    refine all_tr_mbind P _ _ (all_tr_emit P _ (hlog _)) (fun _ => ?_)
    refine all_tr_mbind P _ _ (all_tr_ite P _ _ _ (all_tr_emit P _ (hwr _ _)) rfl) (fun _ => ?_)
    refine all_tr_mbind P _ _ (all_tr_emit P _ (hlog _)) (fun _ => ?_)
    exact all_tr_ite P _ _ _ (all_tr_emit P _ (hwr _ _)) rfl
  · exact all_tr_mbind P _ _ (all_tr_subprocess P w _ hsync) (fun _ => rfl)

theorem all_tr_tryCatchTE {α : Type} (P : Effect → Bool) (m h : M α)
    (hm : (m.tr.all P) = true) (hh : (h.tr.all P) = true) :
    ((tryCatchTE m h).tr.all P) = true := by
  unfold tryCatchTE
  split
  · simp [List.all_append, hm, hh]
  · exact hm

theorem all_tr_withFinally {α : Type} (P : Effect → Bool) (m : M α) (fin : M Unit)
    (hm : (m.tr.all P) = true) (hf : (fin.tr.all P) = true) :
    ((withFinally m fin).tr.all P) = true := by
  unfold withFinally
  simp [List.all_append, hm, hf]

/-! ## Counting umounts and rmdirs -/

theorem countU_append (mp : String) (t1 t2 : List Effect) :
    countU mp (t1 ++ t2) = countU mp t1 + countU mp t2 := by
  simp [countU, List.filter_append]

theorem countRm_append (mp : String) (t1 t2 : List Effect) :
    countRm mp (t1 ++ t2) = countRm mp t1 + countRm mp t2 := by
  simp [countRm, List.filter_append]

theorem countU_eq_zero_of_notCleanup (mp : String) (t : List Effect)
    (h : (t.all notCleanup) = true) : countU mp t = 0 := by
  induction t with
  | nil => rfl
  | cons e rest ih =>
    rw [List.all_cons, Bool.and_eq_true] at h
    obtain ⟨h1, h2⟩ := h
    have he : umountTo mp e = false := by
      cases e with
      | popen l =>
        simp only [umountTo]
        rw [Bool.eq_false_iff]
        intro hc
        have hl := eq_of_beq hc
        subst hl
        simp [notCleanup] at h1
      | log s => rfl
      | mkdtemp p => rfl
      | rmdir p => rfl
      | shell c => rfl
      | osMakedirs p => rfl
      | openWrite p c => rfl
    have hstep : countU mp (e :: rest) = countU mp rest := by
      simp [countU, List.filter_cons, he]
    rw [hstep]
    exact ih h2

theorem countRm_eq_zero_of_notCleanup (mp : String) (t : List Effect)
    (h : (t.all notCleanup) = true) : countRm mp t = 0 := by
  induction t with
  | nil => rfl
  | cons e rest ih =>
    rw [List.all_cons, Bool.and_eq_true] at h
    obtain ⟨h1, h2⟩ := h
    have he : rmdirOf mp e = false := by
      cases e with
      | rmdir p => simp [notCleanup] at h1
      | log s => rfl
      | mkdtemp p => rfl
      | popen l => rfl
      | shell c => rfl
      | osMakedirs p => rfl
      | openWrite p c => rfl
    have hstep : countRm mp (e :: rest) = countRm mp rest := by
      simp [countRm, List.filter_cons, he]
    rw [hstep]
    exact ih h2

/-! ## Trailing-digit stripping -/

theorem reStrip_cons_all {c : Char} {rest : List Char}
    (h : ((c :: rest).all Char.isDigit) = true) : reStrip (c :: rest) = [] := by
  simp [reStrip, h]

theorem reStrip_cons_not_all {c : Char} {rest : List Char}
    (h : ((c :: rest).all Char.isDigit) = false) :
    reStrip (c :: rest) = c :: reStrip rest := by
  simp [reStrip, h]

theorem reStrip_append_digits (l : List Char) :
    ∃ d, l = reStrip l ++ d ∧ (d.all Char.isDigit) = true := by
  induction l with
  | nil => exact ⟨[], rfl, rfl⟩
  | cons c rest ih =>
    cases hall : (c :: rest).all Char.isDigit with
    | true => exact ⟨c :: rest, by simp [reStrip_cons_all hall], hall⟩
    | false =>
      obtain ⟨d, hd, hda⟩ := ih
      refine ⟨d, ?_, hda⟩
      rw [reStrip_cons_not_all hall, List.cons_append]
      exact congrArg (c :: ·) hd

theorem reStrip_eq_nil_all {l : List Char} (h : reStrip l = []) :
    (l.all Char.isDigit) = true := by
  cases l with
  | nil => rfl
  | cons c rest =>
    cases hall : (c :: rest).all Char.isDigit with
    | true => rfl
    | false => rw [reStrip_cons_not_all hall] at h; exact absurd h (by simp)

theorem reStrip_getLast_not_digit :
    ∀ (l : List Char) (c : Char), (reStrip l).getLast? = some c → c.isDigit = false := by
  intro l
  induction l with
  | nil => intro c h; simp [reStrip] at h
  | cons a rest ih =>
    intro c h
    cases hall : (a :: rest).all Char.isDigit with
    | true => rw [reStrip_cons_all hall] at h; simp at h
    | false =>
      rw [reStrip_cons_not_all hall] at h
      cases hr : reStrip rest with
      | nil =>
        rw [hr] at h
        simp [List.getLast?] at h
        subst h
        have hrest := reStrip_eq_nil_all hr
        simp [List.all_cons, hrest] at hall
        exact hall
      | cons x xs =>
        rw [hr, List.getLast?_cons_cons] at h
        exact ih c (by rw [hr]; exact h)

/-! ## handle_iso trace shape -/

theorem handle_iso_eq_dirtarget (w : World) (opts : Options) (iso device : String)
    (h1 : w.isdir iso = false)
    (h2 : w.popenErr ["mount", "-o", "loop", "-t", "iso9660", iso, w.mkdtempName 0] = false)
    (h3 : w.rc ["mount", "-o", "loop", "-t", "iso9660", iso, w.mkdtempName 0] = 0)
    (hd : w.isdir device = true) :
    handle_iso w opts iso device =
      ⟨(withFinally (handle_iso_deploy w opts (w.mkdtempName 0) device)
          (handle_iso_cleanup w (w.mkdtempName 0) device true false)).res,
        [.log ("iso = " ++ iso), .mkdtemp (w.mkdtempName 0),
         .log ("mount " ++ iso ++ " " ++ w.mkdtempName 0),
         .popen ["mount", "-o", "loop", "-t", "iso9660", iso, w.mkdtempName 0]] ++
        [.log "Specified target is a directory, not mounting therefore."] ++
        (withFinally (handle_iso_deploy w opts (w.mkdtempName 0) device)
          (handle_iso_cleanup w (w.mkdtempName 0) device true false)).tr⟩ := by
  simp [handle_iso, mount, subprocess_Popen, mbind, h1, h2, h3, hd]

theorem handle_iso_eq_blktarget (w : World) (opts : Options) (iso device : String)
    (h1 : w.isdir iso = false)
    (h2 : w.popenErr ["mount", "-o", "loop", "-t", "iso9660", iso, w.mkdtempName 0] = false)
    (h3 : w.rc ["mount", "-o", "loop", "-t", "iso9660", iso, w.mkdtempName 0] = 0)
    (hd : w.isdir device = false)
    (h2d : w.popenErr ["mount", device, w.mkdtempName 1] = false)
    (h3d : w.rc ["mount", device, w.mkdtempName 1] = 0) :
    handle_iso w opts iso device =
      ⟨(withFinally (handle_iso_deploy w opts (w.mkdtempName 0) (w.mkdtempName 1))
          (handle_iso_cleanup w (w.mkdtempName 0) (w.mkdtempName 1) true true)).res,
        [.log ("iso = " ++ iso), .mkdtemp (w.mkdtempName 0),
         .log ("mount " ++ iso ++ " " ++ w.mkdtempName 0),
         .popen ["mount", "-o", "loop", "-t", "iso9660", iso, w.mkdtempName 0],
         .mkdtemp (w.mkdtempName 1),
         .log ("mount " ++ device ++ " " ++ w.mkdtempName 1),
         .popen ["mount", device, w.mkdtempName 1]] ++
        (withFinally (handle_iso_deploy w opts (w.mkdtempName 0) (w.mkdtempName 1))
          (handle_iso_cleanup w (w.mkdtempName 0) (w.mkdtempName 1) true true)).tr⟩ := by
  simp [handle_iso, mount, subprocess_Popen, mbind, h1, h2, h3, hd, h2d, h3d]

theorem deploy_notCleanup (w : World) (opts : Options) (mp d : String) :
    ((handle_iso_deploy w opts mp d).tr.all notCleanup) = true := by
  unfold handle_iso_deploy
  refine all_tr_tryCatchTE _ _ _ ?_ ?_
  · refine all_tr_mbind _ _ _ (all_tr_identify _ w mp (fun s => rfl)) (fun fl => ?_)
    refine all_tr_mbind _ _ _ (all_tr_emit _ _ rfl) (fun _ => ?_)
    exact all_tr_copy_grml_files _ w opts fl mp d opts.dryrun
      (fun s => rfl) (fun args => rfl) rfl (fun d2 => rfl) (fun p c => rfl)
  · exact all_tr_mbind _ _ _ (all_tr_emit _ _ rfl) (fun _ => rfl)

theorem cleanup_tr_dir (w : World) (mp0 device : String)
    (h4 : w.isdir mp0 = true)
    (h5 : w.popenErr ["umount", mp0] = false)
    (h6 : w.rc ["umount", mp0] = 0) :
    handle_iso_cleanup w mp0 device true false =
      ⟨.ok (), [.log ("umount " ++ mp0), .popen ["umount", mp0], .rmdir mp0]⟩ := by
  simp [handle_iso_cleanup, unmount, subprocess_Popen, mbind, h4, h5, h6]

theorem cleanup_tr_blk (w : World) (mp0 mp1 : String)
    (h4 : w.isdir mp0 = true)
    (h5 : w.popenErr ["umount", mp0] = false)
    (h6 : w.rc ["umount", mp0] = 0)
    (h4d : w.isdir mp1 = true)
    (h5d : w.popenErr ["umount", mp1] = false)
    (h6d : w.rc ["umount", mp1] = 0) :
    handle_iso_cleanup w mp0 mp1 true true =
      ⟨.ok (), [.log ("umount " ++ mp0), .popen ["umount", mp0], .rmdir mp0,
                .log ("umount " ++ mp1), .popen ["umount", mp1], .rmdir mp1]⟩ := by
  simp [handle_iso_cleanup, unmount, subprocess_Popen, mbind, h4, h5, h6, h4d, h5d, h6d]

theorem countU_nil (mp : String) : countU mp [] = 0 := rfl

theorem countU_cons (mp : String) (e : Effect) (t : List Effect) :
    countU mp (e :: t) = (if umountTo mp e then 1 else 0) + countU mp t := by
  simp only [countU, List.filter_cons]
  split <;> simp_all [Nat.add_comm]

theorem countRm_nil (mp : String) : countRm mp [] = 0 := rfl

theorem countRm_cons (mp : String) (e : Effect) (t : List Effect) :
    countRm mp (e :: t) = (if rmdirOf mp e then 1 else 0) + countRm mp t := by
  simp only [countRm, List.filter_cons]
  split <;> simp_all [Nat.add_comm]

/-- C3: for every source processed, every temporary mount point acquired
for that source (the ISO mount point and, when the target is a block
device, the device mount point) is unmounted and released exactly once on
every exit path of the per-source deployment - normal completion, flavour
identification failure and file-copy failure alike, since the statement
quantifies over all worlds, i.e. over all outcomes of identification and
copying.  The hypotheses state only that the mount/umount operations
themselves succeed and that mkdtemp yields distinct, existing temporary
directories. -/
theorem mountpoints_released_exactly_once (w : World) (opts : Options)
    (iso device : String)
    (h1 : w.isdir iso = false)
    (h2 : w.popenErr ["mount", "-o", "loop", "-t", "iso9660", iso, w.mkdtempName 0] = false)
    (h3 : w.rc ["mount", "-o", "loop", "-t", "iso9660", iso, w.mkdtempName 0] = 0)
    (h4 : w.isdir (w.mkdtempName 0) = true)
    (h5 : w.popenErr ["umount", w.mkdtempName 0] = false)
    (h6 : w.rc ["umount", w.mkdtempName 0] = 0)
    (hdev : w.isdir device = false →
      w.popenErr ["mount", device, w.mkdtempName 1] = false ∧
      w.rc ["mount", device, w.mkdtempName 1] = 0 ∧
      w.isdir (w.mkdtempName 1) = true ∧
      w.popenErr ["umount", w.mkdtempName 1] = false ∧
      w.rc ["umount", w.mkdtempName 1] = 0 ∧
      w.mkdtempName 1 ≠ w.mkdtempName 0) :
    countU (w.mkdtempName 0) (handle_iso w opts iso device).tr = 1 ∧
    countRm (w.mkdtempName 0) (handle_iso w opts iso device).tr = 1 ∧
    (w.isdir device = false →
      countU (w.mkdtempName 1) (handle_iso w opts iso device).tr = 1 ∧
      countRm (w.mkdtempName 1) (handle_iso w opts iso device).tr = 1) := by
  cases hd : w.isdir device with
  | true =>
    rw [handle_iso_eq_dirtarget w opts iso device h1 h2 h3 hd]
    rw [cleanup_tr_dir w (w.mkdtempName 0) device h4 h5 h6]
    have hz := countU_eq_zero_of_notCleanup (w.mkdtempName 0)
      (handle_iso_deploy w opts (w.mkdtempName 0) device).tr
      (deploy_notCleanup w opts (w.mkdtempName 0) device)
    have hzr := countRm_eq_zero_of_notCleanup (w.mkdtempName 0)
      (handle_iso_deploy w opts (w.mkdtempName 0) device).tr
      (deploy_notCleanup w opts (w.mkdtempName 0) device)
    refine ⟨?_, ?_, fun hcontra => absurd hcontra (by simp)⟩
    · simp [withFinally, countU_append, countU_cons, countU_nil, umountTo, hz]
    · simp [withFinally, countRm_append, countRm_cons, countRm_nil, rmdirOf, hzr]
  | false =>
    obtain ⟨h2d, h3d, h4d, h5d, h6d, hne⟩ := hdev hd
    rw [handle_iso_eq_blktarget w opts iso device h1 h2 h3 hd h2d h3d]
    rw [cleanup_tr_blk w (w.mkdtempName 0) (w.mkdtempName 1) h4 h5 h6 h4d h5d h6d]
    have hz0 := countU_eq_zero_of_notCleanup (w.mkdtempName 0)
      (handle_iso_deploy w opts (w.mkdtempName 0) (w.mkdtempName 1)).tr
      (deploy_notCleanup w opts (w.mkdtempName 0) (w.mkdtempName 1))
    have hz1 := countU_eq_zero_of_notCleanup (w.mkdtempName 1)
      (handle_iso_deploy w opts (w.mkdtempName 0) (w.mkdtempName 1)).tr
      (deploy_notCleanup w opts (w.mkdtempName 0) (w.mkdtempName 1))
    have hzr0 := countRm_eq_zero_of_notCleanup (w.mkdtempName 0)
      (handle_iso_deploy w opts (w.mkdtempName 0) (w.mkdtempName 1)).tr
      (deploy_notCleanup w opts (w.mkdtempName 0) (w.mkdtempName 1))
    have hzr1 := countRm_eq_zero_of_notCleanup (w.mkdtempName 1)
      (handle_iso_deploy w opts (w.mkdtempName 0) (w.mkdtempName 1)).tr
      (deploy_notCleanup w opts (w.mkdtempName 0) (w.mkdtempName 1))
    have hne' : w.mkdtempName 0 ≠ w.mkdtempName 1 := fun h => hne h.symm
    refine ⟨?_, ?_, fun _ => ⟨?_, ?_⟩⟩
    · simp [withFinally, countU_append, countU_cons, countU_nil, umountTo, hz0, hne]
    · simp [withFinally, countRm_append, countRm_cons, countRm_nil, rmdirOf, hzr0, hne]
    · simp [withFinally, countU_append, countU_cons, countU_nil, umountTo, hz1, hne']
    · simp [withFinally, countRm_append, countRm_cons, countRm_nil, rmdirOf, hzr1, hne']

/-- Witness for C3: both for a directory target (only the ISO mountpoint is
temporary) and for a block-device target (both mountpoints temporary), at
concrete worlds. -/
theorem mountpoints_released_exactly_once_witness :
    (countU "/tmp/g0" (handle_iso W1 optsMbrCopy "/grml.iso" "/mnt/usb").tr = 1 ∧
     countRm "/tmp/g0" (handle_iso W1 optsMbrCopy "/grml.iso" "/mnt/usb").tr = 1) ∧
    (countU "/tmp/g0" (handle_iso WB optsPlain "/grml.iso" "/dev/sdc").tr = 1 ∧
     countU "/tmp/g1" (handle_iso WB optsPlain "/grml.iso" "/dev/sdc").tr = 1 ∧
     countRm "/tmp/g1" (handle_iso WB optsPlain "/grml.iso" "/dev/sdc").tr = 1) := by
  have h1 := mountpoints_released_exactly_once W1 optsMbrCopy "/grml.iso" "/mnt/usb"
    (by decide) (by decide) (by decide) (by decide) (by decide) (by decide) (by decide)
  have h2 := mountpoints_released_exactly_once WB optsPlain "/grml.iso" "/dev/sdc"
    (by decide) (by decide) (by decide) (by decide) (by decide) (by decide) (by decide)
  exact ⟨⟨h1.1, h1.2.1⟩, h2.1, (h2.2.2 (by decide)).1, (h2.2.2 (by decide)).2⟩

/-! ## Search and flavour identification -/

theorem walkDirs_fst (w : World) (fn : String) :
    ∀ (dirs : List String) (st : Bool × Option String),
      (∀ d ∈ dirs, w.pexists (joinPath d fn) = false) →
      (walkDirs w fn dirs st).1 = st.1 := by
  intro dirs
  induction dirs with
  | nil => intro st _; rfl
  | cons d rest ih =>
    intro st h
    have hd : w.pexists (joinPath d fn) = false := h d (by simp)
    simp only [walkDirs, hd]
    simp only [Bool.false_eq_true, if_false]
    exact ih (st.1, some d) (fun x hx => h x (by simp [hx]))

theorem searchGo_fst (w : World) (fn : String) :
    ∀ (paths : List String) (st : Bool × Option String),
      (∀ p ∈ paths, ∀ d ∈ w.walk p, w.pexists (joinPath d fn) = false) →
      (searchGo w fn paths st).1 = st.1 := by
  intro paths
  induction paths with
  | nil => intro st _; rfl
  | cons p rest ih =>
    intro st h
    simp only [searchGo]
    rw [ih _ (fun x hx => h x (by simp [hx]))]
    exact walkDirs_fst w fn (w.walk p) st (h p (by simp))

theorem search_file_not_found (w : World) (fn sp : String)
    (h : ∀ p ∈ splitColon sp, ∀ d ∈ w.walk p, w.pexists (joinPath d fn) = false) :
    search_file w fn sp = none := by
  unfold search_file
  have hfst := searchGo_fst w fn (splitColon sp) (false, none) h
  rcases hgo : searchGo w fn (splitColon sp) (false, none) with ⟨b, cur⟩
  rw [hgo] at hfst
  simp at hfst
  subst hfst
  simp

theorem search_file_some_form (w : World) (fn sp x : String)
    (h : search_file w fn sp = some x) : ∃ d, x = joinPath d fn := by
  unfold search_file at h
  rcases hgo : searchGo w fn (splitColon sp) (false, none) with ⟨b, cur⟩
  rw [hgo] at h
  cases b with
  | false => simp at h
  | true =>
    cases cur with
    | none => simp at h
    | some d => exact ⟨d, (Option.some.inj h).symm⟩

theorem joinPath_ne_empty (d f : String) : joinPath d f ≠ "" := by
  intro h
  have hd := congrArg String.data h
  simp only [joinPath, String.data_append] at hd
  simp at hd

theorem search_file_ne_some_empty (w : World) (fn sp : String) :
    search_file w fn sp ≠ some "" := by
  intro h
  obtain ⟨d, hd⟩ := search_file_some_form w fn sp "" h
  exact joinPath_ne_empty d fn hd.symm

theorem identify_guard_never_fires (w : World) (mp : String) :
    Effect.log "Error: could not find grml-version file." ∉
      (identify_grml_flavour w mp).tr := by
  have hne := search_file_ne_some_empty w "grml-version" mp
  simp only [identify_grml_flavour]
  rw [if_neg hne]
  cases hs : search_file w "grml-version" mp with
  | none => simp
  | some vf =>
    cases hf : w.firstLine vf with
    | none => simp [hf]
    | some line => simp [hf]

theorem identify_absent_marker_typeError (w : World) (mp : String)
    (h : search_file w "grml-version" mp = none) :
    identify_grml_flavour w mp = ⟨.error .typeError, []⟩ := by
  simp [identify_grml_flavour, h]

/-- C10: search_file returns None - never the empty string - when the file
is not found under any directory of the search path; consequently
identify_grml_flavour's guard comparing the result to the empty string
never fires (its "could not find grml-version file" message is never
logged), and an absent marker instead surfaces as the TypeError raised by
open(None). -/
theorem search_file_none_not_empty (w : World) (fn sp mp : String)
    (h : ∀ p ∈ splitColon sp, ∀ d ∈ w.walk p, w.pexists (joinPath d fn) = false)
    (hm : search_file w "grml-version" mp = none) :
    search_file w fn sp = none ∧
    search_file w fn sp ≠ some "" ∧
    (Effect.log "Error: could not find grml-version file." ∉
      (identify_grml_flavour w mp).tr) ∧
    identify_grml_flavour w mp = ⟨.error .typeError, []⟩ := by
  exact ⟨search_file_not_found w fn sp h, search_file_ne_some_empty w fn sp,
    identify_guard_never_fires w mp, identify_absent_marker_typeError w mp hm⟩

/-- Witness for C10 at a concrete world with no marker anywhere. -/
theorem search_file_none_not_empty_witness :
    search_file WG "grml-version" "/mnt" = none ∧
    search_file WG "grml-version" "/mnt" ≠ some "" ∧
    (Effect.log "Error: could not find grml-version file." ∉
      (identify_grml_flavour WG "/mnt").tr) ∧
    identify_grml_flavour WG "/mnt" = ⟨.error .typeError, []⟩ :=
  search_file_none_not_empty WG "grml-version" "/mnt" "/mnt"
    (by decide) (by decide)

/-! ## Generated menu consistency -/

/-- C9: for every flavour string, the generated GRUB menu text and the
generated syslinux menu text reference the same kernel path
(/boot/release/flavour/linux26), the same initrd path
(/boot/release/flavour/initrd.gz) and the same flavour-derived module name
(module=flavour). -/
theorem grub_syslinux_menus_agree (f : String) :
    (mentions (generate_grub_config f) ("/boot/release/" ++ f ++ "/linux26") ∧
     mentions (generate_syslinux_config f) ("/boot/release/" ++ f ++ "/linux26")) ∧
    (mentions (generate_grub_config f) ("/boot/release/" ++ f ++ "/initrd.gz") ∧
     mentions (generate_syslinux_config f) ("/boot/release/" ++ f ++ "/initrd.gz")) ∧
    (mentions (generate_grub_config f) ("module=" ++ f) ∧
     mentions (generate_syslinux_config f) ("module=" ++ f)) := by
  refine ⟨⟨⟨?_, ?_, ?_⟩, ?_, ?_, ?_⟩, ⟨⟨?_, ?_, ?_⟩, ?_, ?_, ?_⟩, ⟨?_, ?_, ?_⟩, ?_, ?_, ?_⟩
  · exact "# misc options:\ntimeout 30\n# color red/blue green/black\nsplashimage=/boot/grub/splash.xpm.gz\nforeground  = 000000\nbackground  = FFCC33\n\n# define entries:\ntitle " ++ f ++ "  - Default boot (using 1024x768 framebuffer)\nkernel "
  · exact " apm=power-off lang=us vga=791 quiet boot=live nomce " ++ ("module=" ++ f) ++ "\ninitrd " ++ ("/boot/release/" ++ f ++ "/initrd.gz") ++ "\n\n# TODO: extend configuration :)\n"
  · simp only [generate_grub_config, String.append_assoc]
  · exact "# use this to control the bootup via a serial port\n# SERIAL 0 9600\nDEFAULT grml\nTIMEOUT 300\nPROMPT 1\nDISPLAY /boot/isolinux/boot.msg\nF1 /boot/isolinux/boot.msg\nF2 /boot/isolinux/f2\nF3 /boot/isolinux/f3\nF4 /boot/isolinux/f4\nF5 /boot/isolinux/f5\nF6 /boot/isolinux/f6\nF7 /boot/isolinux/f7\nF8 /boot/isolinux/f8\nF9 /boot/isolinux/f9\nF10 /boot/isolinux/f10\n\nLABEL grml\nKERNEL "
  · exact "\nAPPEND initrd=" ++ ("/boot/release/" ++ f ++ "/initrd.gz") ++ " apm=power-off lang=us boot=live nomce " ++ ("module=" ++ f) ++ "\n\n# TODO: extend configuration :)\n"
  · simp only [generate_syslinux_config, String.append_assoc]
  · exact "# misc options:\ntimeout 30\n# color red/blue green/black\nsplashimage=/boot/grub/splash.xpm.gz\nforeground  = 000000\nbackground  = FFCC33\n\n# define entries:\ntitle " ++ f ++ "  - Default boot (using 1024x768 framebuffer)\nkernel " ++ ("/boot/release/" ++ f ++ "/linux26") ++ " apm=power-off lang=us vga=791 quiet boot=live nomce " ++ ("module=" ++ f) ++ "\ninitrd "
  · exact "\n\n# TODO: extend configuration :)\n"
  · simp only [generate_grub_config, String.append_assoc]
  · exact "# use this to control the bootup via a serial port\n# SERIAL 0 9600\nDEFAULT grml\nTIMEOUT 300\nPROMPT 1\nDISPLAY /boot/isolinux/boot.msg\nF1 /boot/isolinux/boot.msg\nF2 /boot/isolinux/f2\nF3 /boot/isolinux/f3\nF4 /boot/isolinux/f4\nF5 /boot/isolinux/f5\nF6 /boot/isolinux/f6\nF7 /boot/isolinux/f7\nF8 /boot/isolinux/f8\nF9 /boot/isolinux/f9\nF10 /boot/isolinux/f10\n\nLABEL grml\nKERNEL " ++ ("/boot/release/" ++ f ++ "/linux26") ++ "\nAPPEND initrd="
  · exact " apm=power-off lang=us boot=live nomce " ++ ("module=" ++ f) ++ "\n\n# TODO: extend configuration :)\n"
  · simp only [generate_syslinux_config, String.append_assoc]
  · exact "# misc options:\ntimeout 30\n# color red/blue green/black\nsplashimage=/boot/grub/splash.xpm.gz\nforeground  = 000000\nbackground  = FFCC33\n\n# define entries:\ntitle " ++ f ++ "  - Default boot (using 1024x768 framebuffer)\nkernel " ++ ("/boot/release/" ++ f ++ "/linux26") ++ " apm=power-off lang=us vga=791 quiet boot=live nomce "
  · exact "\ninitrd " ++ ("/boot/release/" ++ f ++ "/initrd.gz") ++ "\n\n# TODO: extend configuration :)\n"
  · simp only [generate_grub_config, String.append_assoc]
  · exact "# use this to control the bootup via a serial port\n# SERIAL 0 9600\nDEFAULT grml\nTIMEOUT 300\nPROMPT 1\nDISPLAY /boot/isolinux/boot.msg\nF1 /boot/isolinux/boot.msg\nF2 /boot/isolinux/f2\nF3 /boot/isolinux/f3\nF4 /boot/isolinux/f4\nF5 /boot/isolinux/f5\nF6 /boot/isolinux/f6\nF7 /boot/isolinux/f7\nF8 /boot/isolinux/f8\nF9 /boot/isolinux/f9\nF10 /boot/isolinux/f10\n\nLABEL grml\nKERNEL " ++ ("/boot/release/" ++ f ++ "/linux26") ++ "\nAPPEND initrd=" ++ ("/boot/release/" ++ f ++ "/initrd.gz") ++ " apm=power-off lang=us boot=live nomce "
  · exact "\n\n# TODO: extend configuration :)\n"
  · simp only [generate_syslinux_config, String.append_assoc]



theorem mem_tr_mbind_left {α β : Type} (m : M α) (k : α → M β) (e : Effect)
    (h : e ∈ m.tr) : e ∈ (mbind m k).tr := by
  cases hr : m.res with
  | ok a =>
    rw [show (mbind m k).tr = m.tr ++ (k a).tr by simp [mbind, hr]]
    exact List.mem_append_left _ h
  | error e2 =>
    rw [show (mbind m k).tr = m.tr by simp [mbind, hr]]
    exact h

theorem mem_tr_mbind_right {α β : Type} (m : M α) (k : α → M β) (a : α) (e : Effect)
    (hr : m.res = .ok a) (h : e ∈ (k a).tr) : e ∈ (mbind m k).tr := by
  rw [show (mbind m k).tr = m.tr ++ (k a).tr by simp [mbind, hr]]
  exact List.mem_append_right _ h

theorem mem_tr_tryCatchTE_left {α : Type} (m h : M α) (e : Effect)
    (he : e ∈ m.tr) : e ∈ (tryCatchTE m h).tr := by
  unfold tryCatchTE
  split
  · exact List.mem_append_left _ he
  · exact he

theorem mem_tr_withFinally_left {α : Type} (m : M α) (fin : M Unit) (e : Effect)
    (he : e ∈ m.tr) : e ∈ (withFinally m fin).tr := by
  unfold withFinally
  exact List.mem_append_left _ he

theorem copy_tr_mem_copying_log (w : World) (opts : Options) (f im tgt : String)
    (dr : Bool) :
    Effect.log "Copying files. This might take a while...." ∈
      (copy_grml_files w opts f im tgt dr).tr := by
  unfold copy_grml_files
  apply mem_tr_mbind_left
  simp [emit]

theorem identify_found_eq (w : World) (mp vf line : String)
    (hsf : search_file w "grml-version" mp = some vf)
    (hfl : w.firstLine vf = some line) :
    identify_grml_flavour w mp = ⟨.ok (takeFlavour line), []⟩ := by
  obtain ⟨d, hd⟩ := search_file_some_form w "grml-version" mp vf hsf
  subst hd
  simp [identify_grml_flavour, hsf, hfl, Option.some.injEq, joinPath_ne_empty]

theorem deploy_mem_identified_log (w : World) (opts : Options) (mp d vf line : String)
    (hsf : search_file w "grml-version" mp = some vf)
    (hfl : w.firstLine vf = some line) :
    Effect.log ("Identified grml flavour \"" ++ takeFlavour line ++ "\".") ∈
      (handle_iso_deploy w opts mp d).tr := by
  unfold handle_iso_deploy
  apply mem_tr_tryCatchTE_left
  rw [identify_found_eq w mp vf line hsf hfl]
  apply mem_tr_mbind_right _ _ (takeFlavour line) _ rfl
  apply mem_tr_mbind_left
  simp [emit]

theorem deploy_mem_copying_log (w : World) (opts : Options) (mp d vf line : String)
    (hsf : search_file w "grml-version" mp = some vf)
    (hfl : w.firstLine vf = some line) :
    Effect.log "Copying files. This might take a while...." ∈
      (handle_iso_deploy w opts mp d).tr := by
  unfold handle_iso_deploy
  apply mem_tr_tryCatchTE_left
  rw [identify_found_eq w mp vf line hsf hfl]
  apply mem_tr_mbind_right _ _ (takeFlavour line) _ rfl
  apply mem_tr_mbind_right _ _ () _ rfl
  exact copy_tr_mem_copying_log w opts (takeFlavour line) mp d opts.dryrun


theorem all_tr_mount_gen (P : Effect → Bool) (w : World) (s t : String)
    (o : List String) (hlog : ∀ m, P (.log m) = true)
    (hp : P (.popen (["mount"] ++ o ++ [s, t])) = true) :
    ((mount w s t o).tr.all P) = true := by
  unfold mount
  refine all_tr_mbind P _ _ (all_tr_emit P _ (hlog _)) (fun _ => ?_)
  refine all_tr_mbind P _ _ (all_tr_subprocess P w _ ?_) (fun rc => ?_)
  · rw [map_some_getD]; exact hp
  · exact all_tr_ite P _ _ _ (all_tr_mthrow P _) rfl

theorem all_tr_unmount_gen (P : Effect → Bool) (w : World) (d : String)
    (hlog : ∀ m, P (.log m) = true)
    (hp : P (.popen ["umount", d]) = true) :
    ((unmount w d).tr.all P) = true := by
  unfold unmount
  refine all_tr_mbind P _ _ (all_tr_emit P _ (hlog _)) (fun _ => ?_)
  refine all_tr_mbind P _ _ (all_tr_subprocess P w _ hp) (fun rc => ?_)
  exact all_tr_ite P _ _ _ (all_tr_mthrow P _) rfl

theorem all_tr_catchNonExit {α : Type} (P : Effect → Bool) (m h : M α)
    (hm : (m.tr.all P) = true) (hh : (h.tr.all P) = true) :
    ((catchNonExit m h).tr.all P) = true := by
  unfold catchNonExit
  split
  · exact hm
  · simp [List.all_append, hm, hh]
  · exact hm

theorem cleanup_dryAllowed (w : World) (mp0 dmp : String) (ri rd : Bool) :
    ((handle_iso_cleanup w mp0 dmp ri rd).tr.all dryAllowed) = true := by
  unfold handle_iso_cleanup
  refine all_tr_mbind _ _ _ (all_tr_ite _ _ _ _ ?_ rfl) (fun _ => all_tr_ite _ _ _ _ ?_ rfl)
  · exact all_tr_mbind _ _ _ (all_tr_unmount_gen _ w mp0 (fun s => rfl) rfl)
      (fun _ => all_tr_emit _ _ rfl)
  · exact all_tr_mbind _ _ _ (all_tr_unmount_gen _ w dmp (fun s => rfl) rfl)
      (fun _ => all_tr_emit _ _ rfl)

theorem copy_grml_files_dry (w : World) (opts : Options) (f im tgt : String)
    (dr : Bool) (h : opts.dryrun = true) :
    copy_grml_files w opts f im tgt dr = ⟨.error .attributeError,
      [.log "Copying files. This might take a while....",
       .log "dry-run only: grml2usb.mkdir",
       .log "cp squashfs",
       .log "dry-run only: subprocess.Popen"]⟩ := by
  simp [copy_grml_files, execute_mkdir, execute_popen, procWait, mbind, h]

theorem deploy_dryAllowed (w : World) (opts : Options) (mp d : String)
    (h : opts.dryrun = true) :
    ((handle_iso_deploy w opts mp d).tr.all dryAllowed) = true := by
  unfold handle_iso_deploy
  refine all_tr_tryCatchTE _ _ _ ?_
    (all_tr_mbind _ _ _ (all_tr_emit _ _ rfl) (fun _ => rfl))
  refine all_tr_mbind _ _ _ (all_tr_identify _ w mp (fun s => rfl)) (fun fl => ?_)
  refine all_tr_mbind _ _ _ (all_tr_emit _ _ rfl) (fun _ => ?_)
  rw [copy_grml_files_dry w opts fl mp d opts.dryrun h]
  rfl

theorem handle_iso_dryAllowed (w : World) (opts : Options) (iso device : String)
    (h : opts.dryrun = true) :
    ((handle_iso w opts iso device).tr.all dryAllowed) = true := by
  simp only [handle_iso]
  refine all_tr_mbind _ _ _ (all_tr_emit _ _ rfl) (fun _ => ?_)
  refine all_tr_ite _ _ _ _ (all_tr_emit _ _ rfl) ?_
  refine all_tr_mbind _ _ _ (all_tr_emit _ _ rfl) (fun _ => ?_)
  refine all_tr_mbind _ _ _ (all_tr_mount_gen _ w _ _ _ (fun s => rfl) rfl) (fun _ => ?_)
  refine all_tr_ite _ _ _ _ ?_ ?_
  · refine all_tr_mbind _ _ _ (all_tr_emit _ _ rfl) (fun _ => ?_)
    refine all_tr_mbind _ _ _ (all_tr_mret _ _) (fun y => ?_)
    exact all_tr_withFinally _ _ _ (deploy_dryAllowed w opts _ _ h)
      (cleanup_dryAllowed w _ _ _ _)
  · refine all_tr_mbind _ _ _ (all_tr_emit _ _ rfl) (fun _ => ?_)
    refine all_tr_mbind _ _ _ (all_tr_mount_gen _ w _ _ _ (fun s => rfl) rfl) (fun _ => ?_)
    refine all_tr_mbind _ _ _ (all_tr_mret _ _) (fun y => ?_)
    exact all_tr_withFinally _ _ _ (deploy_dryAllowed w opts _ _ h)
      (cleanup_dryAllowed w _ _ _ _)

theorem install_mbr_dryAllowed (w : World) (device : String) :
    ((install_mbr w device true).tr.all dryAllowed) = true := by
  simp only [install_mbr, Bool.not_true, Bool.false_eq_true, if_false]
  refine all_tr_ite _ _ _ _ (all_tr_mthrow _ _) ?_
  refine all_tr_ite _ _ _ _ (all_tr_mthrow _ _) ?_
  refine all_tr_mbind _ _ _ (all_tr_emit _ _ rfl) (fun _ => ?_)
  refine all_tr_mbind _ _ _ (all_tr_subprocess _ w _ ?_) (fun rc1 => ?_)
  · rw [map_some_getD]; rfl
  refine all_tr_ite _ _ _ _ (all_tr_mthrow _ _) ?_
  refine all_tr_mbind _ _ _ (all_tr_emit _ _ rfl) (fun _ => ?_)
  refine all_tr_mbind _ _ _ (all_tr_mret _ _) (fun _ => ?_)
  refine all_tr_mbind _ _ _ (all_tr_emit _ _ rfl) (fun _ => rfl)

theorem main_loop_dryAllowed (w : World) (opts : Options) (device : String)
    (isos : List String) (h : opts.dryrun = true) :
    ((main_loop w opts device isos).tr.all dryAllowed) = true := by
  induction isos with
  | nil => rfl
  | cons i rest ih =>
    simp only [main_loop]
    exact all_tr_mbind _ _ _ (handle_iso_dryAllowed w opts i device h) (fun _ => ih)

theorem main_run_dryAllowed (w : World) (opts : Options) (isos : List String)
    (device : String) (h : opts.dryrun = true) :
    ((main_run w opts isos device).tr.all dryAllowed) = true := by
  simp only [main_run]
  refine all_tr_mbind _ _ _
    (all_tr_ite _ _ _ _ (all_tr_emit _ _ rfl)
      (all_tr_ite _ _ _ _ (all_tr_mthrow _ _) rfl)) (fun _ => ?_)
  refine all_tr_mbind _ _ _ (all_tr_ite _ _ _ _ ?_ rfl) (fun _ => ?_)
  · exact all_tr_mbind _ _ _ (all_tr_emit _ _ rfl)
      (fun _ => all_tr_mbind _ _ _ (all_tr_emit _ _ rfl) (fun _ => rfl))
  refine all_tr_mbind _ _ _ (main_loop_dryAllowed w opts device isos h) (fun _ => ?_)
  refine all_tr_mbind _ _ _ (all_tr_ite _ _ _ _ ?_ rfl) (fun _ => ?_)
  · rw [h]
    exact all_tr_catchNonExit _ _ _ (install_mbr_dryAllowed w _)
      (all_tr_mbind _ _ _ (all_tr_emit _ _ rfl) (fun _ => rfl))
  refine all_tr_mbind _ _ _ (all_tr_ite _ _ _ _ (all_tr_emit _ _ rfl) ?_)
    (fun _ => all_tr_emit _ _ rfl)
  simp only [install_bootloader]
  exact all_tr_ite _ _ _ _ (all_tr_emit _ _ rfl) (all_tr_emit _ _ rfl)


/-- Claim C1 (amended): with dry-run set, every effect the whole run
performs for real is a log message, temporary-directory creation or
removal, an external mount/umount call, or the unguarded
boot-record-writer initialization step; no execute-wrapped install or
mkdir runs, no configuration file is written, and no raw MBR copy or
partition activation happens.  Read-only discovery still runs: with a
readable marker the flavour is still identified (the Identified log
appears) even in dry-run mode.  The original claim, that no external
mount/unmount call happens with real effect, is refuted by the
counterexample theorem dry_run_real_mount_cex. -/
theorem dry_run_effect_restriction :
    (∀ (w : World) (opts : Options) (isos : List String) (device : String),
      opts.dryrun = true →
      ((main_run w opts isos device).tr.all dryAllowed) = true) ∧
    (∀ (w : World) (opts : Options) (iso device vf line : String),
      opts.dryrun = true → w.isdir iso = false →
      w.popenErr ["mount", "-o", "loop", "-t", "iso9660", iso, w.mkdtempName 0] = false →
      w.rc ["mount", "-o", "loop", "-t", "iso9660", iso, w.mkdtempName 0] = 0 →
      w.isdir device = true →
      search_file w "grml-version" (w.mkdtempName 0) = some vf →
      w.firstLine vf = some line →
      Effect.log ("Identified grml flavour \"" ++ takeFlavour line ++ "\".")
        ∈ (handle_iso w opts iso device).tr) := by
  constructor
  · exact main_run_dryAllowed
  · intro w opts iso device vf line hdry h1 h2 h3 hd hsf hfl
    rw [handle_iso_eq_dirtarget w opts iso device h1 h2 h3 hd]
    refine List.mem_append_right _ ?_
    exact mem_tr_withFinally_left _ _ _
      (deploy_mem_identified_log w opts (w.mkdtempName 0) device vf line hsf hfl)

/-- Counterexample to claim C1 as stated: in dry-run mode the external
mount and umount programs are still invoked with real effect (the source
itself notes that dry_run does not work for mount). -/
theorem dry_run_real_mount_cex :
    optsDry.dryrun = true ∧
    Effect.popen ["mount", "-o", "loop", "-t", "iso9660", "/grml.iso", "/tmp/g0"]
      ∈ (handle_iso W1 optsDry "/grml.iso" "/mnt/usb").tr ∧
    Effect.popen ["umount", "/tmp/g0"]
      ∈ (handle_iso W1 optsDry "/grml.iso" "/mnt/usb").tr := by
  refine ⟨rfl, ?_, ?_⟩ <;> decide

/-- Witness for the amended C1, at a concrete dry run. -/
theorem dry_run_effect_restriction_witness :
    ((main_run W1 optsDry ["/grml.iso"] "/mnt/usb").tr.all dryAllowed) = true ∧
    Effect.log "Identified grml flavour \"grml-small\"."
      ∈ (handle_iso W1 optsDry "/grml.iso" "/mnt/usb").tr := by
  refine ⟨dry_run_effect_restriction.1 W1 optsDry ["/grml.iso"] "/mnt/usb" rfl, ?_⟩
  have hb := dry_run_effect_restriction.2 W1 optsDry "/grml.iso" "/mnt/usb"
    "/tmp/g0/grml-version" "grml-small 2021.01" rfl (by decide) (by decide)
    (by decide) (by decide) (by decide) (by decide)
  have ht : takeFlavour "grml-small 2021.01" = "grml-small" := by decide
  rw [ht] at hb
  have hs : ("Identified grml flavour \"" ++ "grml-small" ++ "\".") =
      "Identified grml flavour \"grml-small\"." := by decide
  rw [hs] at hb
  exact hb

/-- Claim C2 (code bug): for a directory target install_mbr is meant
never to run, but the skip_mbr = True assignment in handle_iso is a
function-local Python binding (no global statement), so the module-level
skip_mbr stays False and main invokes install_mbr on the directory target
whenever the mbr option is set: the boot-record-writer initialization and
the raw MBR copy both target the directory /mnt/usb here. -/
theorem mbr_runs_on_directory_target_bug :
    W1.isdir "/mnt/usb" = true ∧ optsMbrCopy.mbr = true ∧
    Effect.popen ["./lilo/lilo.static", "-S", "/dev/null", "-M", "/mnt/usb", "ext"]
      ∈ (main_run W1 optsMbrCopy ["/grml.iso"] "/mnt/usb").tr ∧
    Effect.shell "cat /usr/lib/syslinux/mbr.bin > /mnt/usb"
      ∈ (main_run W1 optsMbrCopy ["/grml.iso"] "/mnt/usb").tr := by
  refine ⟨rfl, rfl, ?_, ?_⟩ <;> decide

/-- Claim C4 (amended): when the source is a directory, handle_iso only
logs that /live/image handling is not yet implemented and returns; no
deployment happens and nothing is produced under the target. -/
theorem directory_source_noop (w : World) (opts : Options) (iso device : String)
    (h : w.isdir iso = true) :
    handle_iso w opts iso device =
      ⟨.ok (), [.log ("iso = " ++ iso),
                .log "TODO: /live/image handling not yet implemented"]⟩ := by
  simp [handle_iso, mbind, h]

/-- Counterexample to claim C4 as stated: with a directory source holding
a grml-testflavour marker and a directory target, a full run performs no
file-producing effect at all (no install, no mkdir, no config write), so
none of the claimed files appear under the target. -/
theorem directory_source_produces_nothing_cex :
    (handle_iso W4 optsPlain "/srcdir" "/mnt/usb").tr =
      [.log "iso = /srcdir", .log "TODO: /live/image handling not yet implemented"] ∧
    ((handle_iso W4 optsPlain "/srcdir" "/mnt/usb").tr.all
      (fun e => !(producesFile e))) = true ∧
    (handle_iso W4 optsPlain "/srcdir" "/mnt/usb").res = .ok () := by
  refine ⟨?_, ?_, ?_⟩ <;> decide

/-- Witness for the amended C4. -/
theorem directory_source_noop_witness :
    handle_iso W4 optsPlain "/srcdir" "/mnt/usb" =
      ⟨.ok (), [.log "iso = /srcdir",
                .log "TODO: /live/image handling not yet implemented"]⟩ :=
  directory_source_noop W4 optsPlain "/srcdir" "/mnt/usb" (by decide)

/-- Counterexample to claim C5 as stated: with a marker whose first line
is empty, identification does not fail - it succeeds with the empty
flavour string (the regex matches the empty string) - and deployment
proceeds: the copy stage is entered and the live directory is created. -/
theorem empty_marker_line_cex :
    identify_grml_flavour W5 "/tmp/g0" = ⟨.ok "", []⟩ ∧
    Effect.log "Copying files. This might take a while...."
      ∈ (handle_iso W5 optsPlain "/grml.iso" "/mnt/usb").tr ∧
    Effect.osMakedirs "/mnt/usb/live/"
      ∈ (handle_iso W5 optsPlain "/grml.iso" "/mnt/usb").tr := by
  refine ⟨?_, ?_, ?_⟩ <;> decide

/-- Claim C5 (amended): for every source whose grml-version marker has an
empty first line, flavour identification succeeds with the empty string as
flavour (no FlavourNotFound/FlavourUnreadable error is raised) and file
deployment is entered rather than skipped. -/
theorem empty_marker_line_identify_succeeds (w : World) (opts : Options)
    (iso device vf : String)
    (h1 : w.isdir iso = false)
    (h2 : w.popenErr ["mount", "-o", "loop", "-t", "iso9660", iso, w.mkdtempName 0] = false)
    (h3 : w.rc ["mount", "-o", "loop", "-t", "iso9660", iso, w.mkdtempName 0] = 0)
    (hd : w.isdir device = true)
    (hsf : search_file w "grml-version" (w.mkdtempName 0) = some vf)
    (hfl : w.firstLine vf = some "") :
    identify_grml_flavour w (w.mkdtempName 0) = ⟨.ok "", []⟩ ∧
    Effect.log "Copying files. This might take a while...."
      ∈ (handle_iso w opts iso device).tr := by
  constructor
  · have := identify_found_eq w (w.mkdtempName 0) vf "" hsf hfl
    simpa [takeFlavour] using this
  · rw [handle_iso_eq_dirtarget w opts iso device h1 h2 h3 hd]
    refine List.mem_append_right _ ?_
    exact mem_tr_withFinally_left _ _ _
      (deploy_mem_copying_log w opts (w.mkdtempName 0) device vf "" hsf hfl)

/-- Witness for the amended C5. -/
theorem empty_marker_line_identify_succeeds_witness :
    identify_grml_flavour W5 "/tmp/g0" = ⟨.ok "", []⟩ ∧
    Effect.log "Copying files. This might take a while...."
      ∈ (handle_iso W5 optsMbr "/grml.iso" "/mnt/usb").tr :=
  empty_marker_line_identify_succeeds W5 optsMbr "/grml.iso" "/mnt/usb"
    "/tmp/g0/grml-version" (by decide) (by decide) (by decide) (by decide)
    (by decide) (by decide)

/-- Claim C8 (code bug): the which syslinux check does run once, up
front, before any deployment, but its failure is fatal even when GRUB mode
was explicitly requested: with the grub option set and no syslinux on
PATH, the run exits with status 1 immediately after printing the advice to
consider the grub option - advice the code itself then ignores. -/
theorem syslinux_check_fatal_despite_grub_bug :
    optsGrub.grub = true ∧ which WG "syslinux" = none ∧
    main_run WG optsGrub ["/grml.iso"] "/dev/sdb" =
      ⟨.error (.systemExit 1),
       [.log "Sorry, syslinux not available. Exiting.",
        .log "Please install syslinux or consider using the --grub option."]⟩ := by
  refine ⟨rfl, ?_, ?_⟩ <;> decide


theorem install_mbr_dry_eq_ok (w : World) (device : String)
    (hw : is_writeable w device = true)
    (hx : is_exe w "./lilo/lilo.static" = true)
    (hp : w.popenErr ["./lilo/lilo.static", "-S", "/dev/null", "-M", device, "ext"] = false)
    (hrc : w.rc ["./lilo/lilo.static", "-S", "/dev/null", "-M", device, "ext"] = 0) :
    install_mbr w device true =
      ⟨.ok (), [.log ("./lilo/lilo.static -S /dev/null -M " ++ device ++ " ext"),
                .popen ["./lilo/lilo.static", "-S", "/dev/null", "-M", device, "ext"],
                .log ("./lilo/lilo.static -S /dev/null -A " ++ device ++ " 1"),
                .log ("cat /usr/lib/syslinux/mbr.bin > " ++ device)]⟩ := by
  simp [install_mbr, subprocess_Popen, mbind, hw, hx, hp, hrc]

theorem install_mbr_dry_eq_fail (w : World) (device : String)
    (hw : is_writeable w device = true)
    (hx : is_exe w "./lilo/lilo.static" = true)
    (hp : w.popenErr ["./lilo/lilo.static", "-S", "/dev/null", "-M", device, "ext"] = false)
    (hrc : ¬ w.rc ["./lilo/lilo.static", "-S", "/dev/null", "-M", device, "ext"] = 0) :
    install_mbr w device true =
      ⟨.error (.exception "error executing lilo"),
       [.log ("./lilo/lilo.static -S /dev/null -M " ++ device ++ " ext"),
        .popen ["./lilo/lilo.static", "-S", "/dev/null", "-M", device, "ext"]]⟩ := by
  simp [install_mbr, subprocess_Popen, mbind, hw, hx, hp, hrc]

/-- Claim C6 (amended): in the MBR installation sequence under simulation
mode, step 1 (boot-record-writer initialization, lilo -M) is still
attempted for real, while step 2 (partition activation, lilo -A) AND step
3 (raw MBR blob copy onto the device) are both skipped - step 3 is only
logged, contrary to the original claim that it is still attempted. -/
theorem mbr_dry_run_steps (w : World) (device : String)
    (hw : is_writeable w device = true)
    (hx : is_exe w "./lilo/lilo.static" = true)
    (hp : w.popenErr ["./lilo/lilo.static", "-S", "/dev/null", "-M", device, "ext"] = false) :
    Effect.popen ["./lilo/lilo.static", "-S", "/dev/null", "-M", device, "ext"]
      ∈ (install_mbr w device true).tr ∧
    (∀ e ∈ (install_mbr w device true).tr, ∀ args : List String,
      e ≠ .popen ("./lilo/lilo.static" :: "-S" :: "/dev/null" :: "-A" :: args)) ∧
    (∀ e ∈ (install_mbr w device true).tr, ∀ c : String, e ≠ .shell c) := by
  by_cases hrc : w.rc ["./lilo/lilo.static", "-S", "/dev/null", "-M", device, "ext"] = 0
  · rw [install_mbr_dry_eq_ok w device hw hx hp hrc]
    refine ⟨by simp, ?_, ?_⟩
    · intro e he args
      simp only [List.mem_cons, List.not_mem_nil, or_false] at he
      rcases he with h | h | h | h <;> subst h <;> simp
    · intro e he c
      simp only [List.mem_cons, List.not_mem_nil, or_false] at he
      rcases he with h | h | h | h <;> subst h <;> simp
  · rw [install_mbr_dry_eq_fail w device hw hx hp hrc]
    refine ⟨by simp, ?_, ?_⟩
    · intro e he args
      simp only [List.mem_cons, List.not_mem_nil, or_false] at he
      rcases he with h | h <;> subst h <;> simp
    · intro e he c
      simp only [List.mem_cons, List.not_mem_nil, or_false] at he
      rcases he with h | h <;> subst h <;> simp

/-- Counterexample to claim C6 as stated: under simulation the raw MBR
copy (step 3) is NOT attempted - the trace contains no shell effect at
all - while step 1 is attempted and step 2 is skipped. -/
theorem mbr_dry_run_no_raw_copy_cex :
    ((install_mbr WD "/dev/sdb" true).tr.all
      (fun e => match e with | .shell _ => false | _ => true)) = true ∧
    Effect.popen ["./lilo/lilo.static", "-S", "/dev/null", "-M", "/dev/sdb", "ext"]
      ∈ (install_mbr WD "/dev/sdb" true).tr ∧
    ((install_mbr WD "/dev/sdb" true).tr.all
      (fun e => match e with
        | .popen ("./lilo/lilo.static" :: "-S" :: "/dev/null" :: "-A" :: _) => false
        | _ => true)) = true := by
  refine ⟨?_, ?_, ?_⟩ <;> decide

/-- Witness for the amended C6. -/
theorem mbr_dry_run_steps_witness :
    Effect.popen ["./lilo/lilo.static", "-S", "/dev/null", "-M", "/dev/sdb", "ext"]
      ∈ (install_mbr WD "/dev/sdb" true).tr ∧
    (∀ e ∈ (install_mbr WD "/dev/sdb" true).tr, ∀ args : List String,
      e ≠ .popen ("./lilo/lilo.static" :: "-S" :: "/dev/null" :: "-A" :: args)) ∧
    (∀ e ∈ (install_mbr WD "/dev/sdb" true).tr, ∀ c : String, e ≠ .shell c) :=
  mbr_dry_run_steps WD "/dev/sdb" (by decide) (by decide) (by decide)

theorem install_bootloader_tr (opts : Options) (p : String) :
    (install_bootloader opts p).tr =
      [if opts.grub then Effect.log ("TODO: grub-install " ++ install_bootloader_device p)
       else Effect.log ("debug: syslinux " ++ install_bootloader_device p ++ " [TODO]")] := by
  cases hg : opts.grub <;> simp [install_bootloader, install_grub, install_syslinux, hg]

/-- Claim C7: a target path whose last character is a digit is normalized
by stripping its maximal trailing digit run (the stripped suffix is
nonempty and all digits, and the normalized path no longer ends in a
digit) before any installer is invoked; a path with no trailing digit is
used unchanged; the bootloader installers receive exactly the normalized
device; and with installMbr set and target /dev/sdb1, the MBR installer
operates on /dev/sdb and no external call ever receives /dev/sdb1. -/
theorem bootloader_normalizes_to_whole_device :
    (∀ p : String, lastCharIsDigit p = true →
      (∃ d, p.data = (install_bootloader_device p).data ++ d ∧ d ≠ [] ∧
        (d.all Char.isDigit) = true) ∧
      lastCharIsDigit (install_bootloader_device p) = false) ∧
    (∀ p : String, lastCharIsDigit p = false → install_bootloader_device p = p) ∧
    (∀ (opts : Options) (p : String), (install_bootloader opts p).tr =
      [if opts.grub then Effect.log ("TODO: grub-install " ++ install_bootloader_device p)
       else Effect.log ("debug: syslinux " ++ install_bootloader_device p ++ " [TODO]")]) ∧
    (Effect.popen ["./lilo/lilo.static", "-S", "/dev/null", "-M", "/dev/sdb", "ext"]
        ∈ (main_run WD optsMbr ["/srcdir"] "/dev/sdb1").tr ∧
     Effect.shell "cat /usr/lib/syslinux/mbr.bin > /dev/sdb"
        ∈ (main_run WD optsMbr ["/srcdir"] "/dev/sdb1").tr ∧
     ((main_run WD optsMbr ["/srcdir"] "/dev/sdb1").tr.all (fun e =>
        match e with
        | .popen args => !args.contains "/dev/sdb1"
        | .shell c => c == "cat /usr/lib/syslinux/mbr.bin > /dev/sdb"
        | _ => true)) = true) := by
  refine ⟨?_, ?_, install_bootloader_tr, ?_, ?_, ?_⟩
  · intro p hp
    have hdev : install_bootloader_device p = stripPartitionDigits p := by
      simp [install_bootloader_device, hp]
    have hdata : (install_bootloader_device p).data = reStrip p.data := by
      rw [hdev]; rfl
    constructor
    · obtain ⟨d, hd, hall⟩ := reStrip_append_digits p.data
      refine ⟨d, by rw [hdata]; exact hd, ?_, hall⟩
      intro hnil
      subst hnil
      rw [List.append_nil] at hd
      unfold lastCharIsDigit at hp
      rcases hlast : p.data.getLast? with _ | c
      · rw [hlast] at hp; simp at hp
      · rw [hlast] at hp
        have := reStrip_getLast_not_digit p.data c (by rw [← hd]; exact hlast)
        simp [this] at hp
    · unfold lastCharIsDigit
      rw [hdata]
      rcases hlast : (reStrip p.data).getLast? with _ | c
      · rfl
      · exact reStrip_getLast_not_digit p.data c hlast
  · intro p hp
    simp [install_bootloader_device, hp]
  · decide
  · decide
  · decide

/-- Witness for C7 at the concrete paths /dev/sdb1 and /dev/sdc. -/
theorem bootloader_normalizes_to_whole_device_witness :
    (∃ d, "/dev/sdb1".data = (install_bootloader_device "/dev/sdb1").data ++ d ∧
      d ≠ [] ∧ (d.all Char.isDigit) = true) ∧
    lastCharIsDigit (install_bootloader_device "/dev/sdb1") = false ∧
    install_bootloader_device "/dev/sdc" = "/dev/sdc" := by
  have h := bootloader_normalizes_to_whole_device
  exact ⟨(h.1 "/dev/sdb1" (by decide)).1, (h.1 "/dev/sdb1" (by decide)).2,
    h.2.1 "/dev/sdc" (by decide)⟩

end Grml2usb
